import Mathlib

/-!
Verification of the AIDA plugin core logic (enXov/AIDA).

This file shallowly embeds the pseudocode-collection routine of
`src/backend/Action_Handler.py`, the AI request dispatcher of
`src/backend/AI_Handler.py`, and the `set_pseudocode` entry point of
`src/frontend/Summarize_Widget.py`, and proves the specified properties
about them.

Host interaction (the disassembler's symbol table, decompiler, network
service, UI widgets) is modelled by explicit environment records whose
operations return `Except String α`: `Except.error e` models a raised
Python exception with message `e`; sentinel "not found" results (such as
`BADADDR` or a null function object) are modelled by the same values the
source checks for.
-/

/-- Character class `[0-9A-Fa-f]` of the reference regex in
`ActionHandler.__extract_sub_functions` (`Action_Handler.py` line 65). -/
def isHexChar (c : Char) : Bool :=
  c.isDigit || ('a' ≤ c && c ≤ 'f') || ('A' ≤ c && c ≤ 'F')

/-- Character class `\s` used by the main-function regex
`(sub_[0-9A-Fa-f]+)\s*\(` (`Action_Handler.py` line 129); ASCII whitespace
as matched by the Python `re` module. -/
def isPySpace (c : Char) : Bool :=
  c = ' ' || c = '\t' || c = '\n' || c = '\r' || c = '\x0b' || c = '\x0c'

/-- Scanner for all non-overlapping matches of the regex
`sub_[0-9A-Fa-f]+`, with the greedy-maximal hex run, exactly as
`re.findall` scans (`Action_Handler.py` line 66): a failed match attempt
advances one position; a successful match resumes after the consumed
text.  Structural recursion on a fuel argument; every step consumes at
least one character, so fuel equal to the list length (as the wrapper
below passes) is never exhausted. -/
def findAllSubsAux : Nat → List Char → List String
  | 0, _ => []
  | _ + 1, [] => []
  | fuel + 1, 's' :: 'u' :: 'b' :: '_' :: rest =>
      let hex := rest.takeWhile isHexChar
      if hex.isEmpty then findAllSubsAux fuel ('u' :: 'b' :: '_' :: rest)
      else ("sub_" ++ String.mk hex) :: findAllSubsAux fuel (rest.drop hex.length)
  | fuel + 1, _ :: rest => findAllSubsAux fuel rest

/-- All matches of `sub_[0-9A-Fa-f]+` in textual order, as `re.findall`
produces them. -/
def findAllSubs (cs : List Char) : List String :=
  findAllSubsAux cs.length cs

/-- Scanner for the first (leftmost) match of the regex
`(sub_[0-9A-Fa-f]+)\s*\(`, returning the captured group, as
`re.search(...).group(1)` produces it (`Action_Handler.py` lines
129-130).  Backtracking the greedy hex run never helps this pattern (a
hex digit is neither whitespace nor `(`), so a position matches exactly
when the maximal hex run is followed by optional whitespace and `(`;
otherwise the scanner advances one position.  Fuel as in
`findAllSubsAux`. -/
def findMainRefAux : Nat → List Char → Option String
  | 0, _ => none
  | _ + 1, [] => none
  | fuel + 1, 's' :: 'u' :: 'b' :: '_' :: rest =>
      let hex := rest.takeWhile isHexChar
      if hex.isEmpty then findMainRefAux fuel ('u' :: 'b' :: '_' :: rest)
      else
        match (rest.drop hex.length).dropWhile isPySpace with
        | '(' :: _ => some ("sub_" ++ String.mk hex)
        | _ => findMainRefAux fuel ('u' :: 'b' :: '_' :: rest)
  | fuel + 1, _ :: rest => findMainRefAux fuel rest

/-- Captured group of the first match of `(sub_[0-9A-Fa-f]+)\s*\(`, the
"main" function reference. -/
def findMainRef (cs : List Char) : Option String :=
  findMainRefAux cs.length cs

/-- Sentinel address `idaapi.BADADDR` checked at `Action_Handler.py`
line 82 (64-bit host). -/
def BADADDR : Nat := 0xFFFFFFFFFFFFFFFF

/-- Host (IDA Pro) services used by `ActionHandler.__get_function_pseudocode`.
Each may raise (`Except.error`).  `get_name_ea` returns an address
(possibly `BADADDR`); `get_func` returns a function object or `none`
(Python falsy); `decompile` returns the decompiled function's raw
pseudocode lines, or `none` when decompilation yields no object;
`tag_remove` strips IDA colour tags from one line. -/
structure Host where
  get_name_ea : String → Except String Nat
  get_func : Nat → Except String (Option Nat)
  decompile : Nat → Except String (Option (List String))
  tag_remove : String → Except String String

/-- Tag-strip and blank-line filter loop of
`ActionHandler.__get_function_pseudocode` (`Action_Handler.py`
lines 98-102): each line is cleaned with `tag_remove`, and kept (uncleaned
of surrounding whitespace, as the source appends `clean_line` itself) only
when its strip is non-empty. -/
def cleanedLines (host : Host) : List String → Except String (List String)
  | [] => pure []
  | l :: rest => do
      let c ← host.tag_remove l
      let tail ← cleanedLines host rest
      if c.trim = "" then pure tail else pure (c :: tail)

/-- Embedding of `ActionHandler.__get_function_pseudocode`
(`Action_Handler.py` lines 69-107): resolve a name to an address, fetch
the function object, decompile, clean the emitted lines and join with
newlines.  Every failure — `BADADDR`, missing function object, failed
decompilation, or any raised exception — yields `""` (the source's
`except` clause prints and returns `""`). -/
def get_function_pseudocode (host : Host) (func_name : String) : String :=
  let r : Except String String := do
    let func_addr ← host.get_name_ea func_name
    if func_addr = BADADDR then pure "" else do
      let f? ← host.get_func func_addr
      match f? with
      | none => pure ""
      | some f => do
          let c? ← host.decompile f
          match c? with
          | none => pure ""
          | some sv =>
              if sv.isEmpty then pure ""
              else do
                let text ← cleanedLines host sv
                pure (String.intercalate "\n" text)
  match r with
  | .ok s => s
  | .error _ => ""

/-- Embedding of `ActionHandler.__extract_sub_functions`
(`Action_Handler.py` lines 55-67).  The source builds a Python `set`; its
iteration order is unspecified, so we keep the match list in textual
order and let the collection loop's visited check collapse duplicates —
this realises one admissible set-iteration order (first textual
occurrence). -/
def extract_sub_functions (pseudocode : String) : List String :=
  findAllSubs pseudocode.data

/-- While loop of `ActionHandler.__get_all_related_pseudocode`
(`Action_Handler.py` lines 136-148): pop the next reference, skip it if
already collected, otherwise mark it collected, fetch its pseudocode, and
append a `// Function:` section when the fetched code is non-empty. -/
def collectLoop (host : Host) (collected : List String) (result : String) :
    List String → String
  | [] => result
  | f :: rest =>
      if f ∈ collected then collectLoop host collected result rest
      else
        let func_code := get_function_pseudocode host f
        let result' :=
          if func_code = "" then result
          else result ++ "\n\n// Function: " ++ f ++ "\n" ++ func_code
        collectLoop host (f :: collected) result' rest

/-- Embedding of `ActionHandler.__get_all_related_pseudocode`
(`Action_Handler.py` lines 109-150), the spec's `collect`: scan the
primary text for `sub_` references, pre-mark the main function (first
reference followed by `(`) as collected, then run the collection loop
starting from the primary text. -/
def get_all_related_pseudocode (host : Host) (primary_pseudocode : String) :
    String :=
  let sub_funcs := extract_sub_functions primary_pseudocode
  let collected₀ : List String :=
    match findMainRef primary_pseudocode.data with
    | some m => [m]
    | none => []
  collectLoop host collected₀ primary_pseudocode sub_funcs

/-- References actually processed (not skipped) by `collectLoop` given an
initial collected set, in processing order. -/
def loopRefs (collected : List String) : List String → List String
  | [] => []
  | f :: rest =>
      if f ∈ collected then loopRefs collected rest
      else f :: loopRefs (f :: collected) rest

/-- Distinct helper references that the collection loop of
`get_all_related_pseudocode` processes for a primary text: the scanned
references, first occurrences only, with the main reference excluded. -/
def helperRefs (primary_pseudocode : String) : List String :=
  loopRefs
    (match findMainRef primary_pseudocode.data with
     | some m => [m]
     | none => [])
    (extract_sub_functions primary_pseudocode)

/-- Concatenation of section strings, as the loop's `result +=`
accumulates them. -/
def joinSections : List String → String
  | [] => ""
  | s :: rest => s ++ joinSections rest

/-- The text one processed reference contributes to the output: a
`// Function:` separator plus the fetched body when the body is
non-empty, nothing otherwise. -/
def helperSection (host : Host) (f : String) : String :=
  let code := get_function_pseudocode host f
  if code = "" then "" else "\n\n// Function: " ++ f ++ "\n" ++ code

/-- System prompt built in `AIHandler.__init__` (`AI_Handler.py` lines
31-54), with the `[language_combobox_value]` placeholder. -/
def SYSTEM_PROMPT : String := String.intercalate "\n" [
  "",
  "            Act as an expert reverse engineer and code translator. Your task is to convert IDA Pro decompiled pseudocode into clean, modern, readable [language_combobox_value] code.",
  "            ",
  "            Key requirements:",
  "            1. You will receive pseudocode with MULTIPLE FUNCTIONS. The MAIN function is at the TOP, and HELPER functions are BELOW.",
  "            2. You MUST identify each \"sub_XXXXXX\" call in the main function and REPLACE them with appropriate calls to your translated helper functions.",
  "            3. Create meaningful names for the helper functions based on their behavior.",
  "            4. Your final code MUST contain implementations for ALL helper functions AND properly CALL them from the main function.",
  "            5. Improve readability by using descriptive names and modern syntax.",
  "            6. Replace low-level pointer operations with safer alternatives appropriate for [language_combobox_value].",
  "            ",
  "            CRITICAL:",
  "            - When you see a call like \"sub_18000F2C0(lpSubKey, Name)\" in the main function, you MUST implement the corresponding helper function AND call it with the right parameters.",
  "            - DO NOT reimplement logic in the main function that should be in helper functions.",
  "            - ENSURE all helper functions are properly connected to the main function.",
  "            ",
  "            Example:",
  "            If the main function calls \"sub_1234(a, b)\" and below you see \"void sub_1234(int* a, char* b)\", you must:",
  "            1. Create a proper implementatio",
  "                    print(pseudocode) (e.g., \"void processData(int* value, char* text)\")",
  "            2. Call it appropriately in the main function (e.g., \"processData(a, b)\")",
  "            ",
  "            Your output must be ONLY the translated code with no markdown, explanations, or comments around it.",
  "        "]

/-- User message built in `AIHandler.__process_deepseek` (`AI_Handler.py`
line 104). -/
def userMessage (target_language pseudocode : String) : String :=
  "Translate this IDA Pro decompiled pseudocode to clean, modern " ++ target_language ++
    " code. Return ONLY the translated code without any markdown formatting, explanations, or comments. Do NOT use code blocks with backticks. Just output the raw code directly:\n\n" ++
    pseudocode

/-- Python `str.lower()` as `AIHandler.process_request` applies it to the
model name (ASCII case folding; the recognized family name is ASCII). -/
def py_lower (s : String) : String := String.mk (s.data.map Char.toLower)

/-- Python `str.startswith(pre)`. -/
def py_startswith (s pre : String) : Bool := pre.data.isPrefixOf s.data

/-- Network environment for `AIHandler`: `complete` models constructing
the `ChatCompletionsClient` and issuing `client.complete` with the fixed
generation parameters (temperature 0, max tokens 2048, top_p 1,
endpoint constant) — it returns the message contents of the response's
choices, or `Except.error` for any exception raised while building the
client or performing the call. -/
structure AIEnv where
  complete : (model : String) → (system_message : String) → (user_message : String) →
    (api_key : String) → Except String (List String)

/-- Embedding of `AIHandler.__process_deepseek` (`AI_Handler.py` lines
80-113): perform the completion request and return the first choice's
message content; an empty choices list raises the Python `IndexError`
of `response.choices[0]`. -/
def process_deepseek (env : AIEnv)
    (model system_prompt pseudocode api_key target_language : String) :
    Except String String := do
  let choices ← env.complete model system_prompt
    (userMessage target_language pseudocode) api_key
  match choices with
  | [] => Except.error "list index out of range"
  | c :: _ => pure c

/-- Embedding of `AIHandler.process_request` (`AI_Handler.py` lines
56-78), the spec's `translate`: substitute the target language into the
system prompt, dispatch to the DeepSeek handler when the lowered model
name starts with `"deepseek"`, and fall off the end of the `try` (Python
`None`, modelled `none`) otherwise; any exception is caught and turned
into the prefixed error string. -/
def process_request (env : AIEnv)
    (model_name pseudocode target_language api_key : String) : Option String :=
  let body : Except String (Option String) := do
    let system_prompt := SYSTEM_PROMPT.replace "[language_combobox_value]" target_language
    if py_startswith (py_lower model_name) "deepseek" then do
      let r ← process_deepseek env model_name system_prompt pseudocode api_key target_language
      pure (some r)
    else
      pure none
  match body with
  | .ok v => v
  | .error e => some ("Error processing request: " ++ e)

/-- Configuration controls of the main widget read by
`SummarizeWidget.set_pseudocode` (`Summarize_Widget.py` lines 127-129). -/
structure MainCfg where
  model_combo : String
  lang_combo : String
  token_input : String
deriving DecidableEq

/-- State of the `main_widget` reference: a live widget whose controls
can be read, or a widget whose underlying Qt object was deleted, so that
reading a control raises `RuntimeError` (the case handled at
`Summarize_Widget.py` lines 151-153). -/
inductive CfgSource
  | live (cfg : MainCfg)
  | destroyed
deriving DecidableEq

/-- Arguments of the `AIHandler.process_request` coroutine handed to
`AsyncThread` (`Summarize_Widget.py` lines 137-144); building the
coroutine performs no network activity — the request runs only once the
worker thread is started. -/
structure TranslationRequest where
  model_name : String
  pseudocode : String
  target_language : String
  api_key : String
deriving DecidableEq

/-- Observable state of a `SummarizeWidget` as `set_pseudocode` touches
it: `responseTE` is `none` before `PopulateForm` created the output text
area and `some t` when the area exists and displays `t`; `main_widget`
is the reference to the configuration widget; `async_thread` is the
pending worker's request, `none` when no worker is live. -/
structure WidgetState where
  responseTE : Option String
  main_widget : Option CfgSource
  async_thread : Option TranslationRequest
deriving DecidableEq

/-- Embedding of `SummarizeWidget.set_pseudocode` (`Summarize_Widget.py`
lines 107-155): everything is guarded by `if self.responseTE:`; inside,
any previous worker is cleaned up, a missing `main_widget` or an empty
API key shows a validation message without creating a worker, a deleted
`main_widget` raises `RuntimeError` which the handler converts to an
instructive message and clears the reference, and otherwise a worker
carrying the translation request is created and started. -/
def set_pseudocode (st : WidgetState) (code : String) : WidgetState :=
  match st.responseTE with
  | none => st
  | some _ =>
      let st1 : WidgetState := { st with async_thread := none }
      match st.main_widget with
      | none =>
          { st1 with responseTE := some "Plugin widget is not initialized. Press Alt + T first. Then try again" }
      | some CfgSource.destroyed =>
          { st1 with
              responseTE := some "Plugin widget was closed. Press Alt + T to reopen it. Then try again",
              main_widget := none }
      | some (CfgSource.live cfg) =>
          if cfg.token_input = "" then
            { st1 with responseTE := some "API key is required" }
          else
            { st1 with async_thread := some ⟨cfg.model_combo, code, cfg.lang_combo, cfg.token_input⟩ }

/-- Host whose symbol lookup always raises: every helper resolution
fails. -/
def hostFail : Host where
  get_name_ea := fun _ => Except.error "lookup failure"
  get_func := fun _ => Except.ok none
  decompile := fun _ => Except.ok none
  tag_remove := fun s => Except.ok s

/-- Host that resolves every name to a one-line body. -/
def hostOk : Host where
  get_name_ea := fun _ => Except.ok 0
  get_func := fun a => Except.ok (some a)
  decompile := fun _ => Except.ok (some ["int x;"])
  tag_remove := fun s => Except.ok s

/-- Network environment whose completion call always raises. -/
def envFail : AIEnv where
  complete := fun _ _ _ _ => Except.error "boom"

example : findAllSubs "sub_12(a); sub_ab; sub_12".data = ["sub_12", "sub_ab", "sub_12"] := by decide
example : findMainRef "x = sub_1F; sub_2A  (y)".data = some "sub_2A" := by decide
example : findMainRef "x = sub_1F; sub_2A".data = none := by decide

/-! Structural lemmas about the collection loop. -/

/-- Every reference the loop processes was absent from the initial
collected set. -/
theorem loopRefs_not_mem_collected :
    ∀ (fs collected : List String) (f : String),
      f ∈ loopRefs collected fs → f ∉ collected := by
  intro fs
  induction fs with
  | nil => intro collected f h; simp [loopRefs] at h
  | cons g rest ih =>
      intro collected f h
      by_cases hg : g ∈ collected
      · exact ih collected f (by simpa [loopRefs, hg] using h)
      · simp only [loopRefs, if_neg hg, List.mem_cons] at h
        rcases h with h | h
        · subst h; exact hg
        · have := ih (g :: collected) f h
          intro hf; exact this (List.mem_cons_of_mem g hf)

/-- The loop processes each distinct reference at most once. -/
theorem loopRefs_nodup :
    ∀ (fs collected : List String), (loopRefs collected fs).Nodup := by
  intro fs
  induction fs with
  | nil => intro collected; simp [loopRefs]
  | cons g rest ih =>
      intro collected
      by_cases hg : g ∈ collected
      · simpa [loopRefs, hg] using ih collected
      · simp only [loopRefs, if_neg hg]
        refine List.nodup_cons.mpr ⟨?_, ih (g :: collected)⟩
        intro hmem
        exact loopRefs_not_mem_collected rest (g :: collected) g hmem
          (List.mem_cons_self g collected)

/-- The loop only ever processes references drawn from its input list. -/
theorem loopRefs_subset :
    ∀ (fs collected : List String) (f : String),
      f ∈ loopRefs collected fs → f ∈ fs := by
  intro fs
  induction fs with
  | nil => intro collected f h; simp [loopRefs] at h
  | cons g rest ih =>
      intro collected f h
      by_cases hg : g ∈ collected
      · exact List.mem_cons_of_mem g (ih collected f (by simpa [loopRefs, hg] using h))
      · simp only [loopRefs, if_neg hg, List.mem_cons] at h
        rcases h with h | h
        · exact h ▸ List.mem_cons_self g rest
        · exact List.mem_cons_of_mem g (ih (g :: collected) f h)

/-- The collection loop equals its accumulator followed by one
`helperSection` per processed reference, in processing order. -/
theorem collectLoop_eq (host : Host) :
    ∀ (fs collected : List String) (result : String),
      collectLoop host collected result fs =
        result ++ joinSections ((loopRefs collected fs).map (helperSection host)) := by
  intro fs
  induction fs with
  | nil => intro collected result; simp [collectLoop, loopRefs, joinSections]
  | cons f rest ih =>
      intro collected result
      by_cases h : f ∈ collected
      · simp only [collectLoop, loopRefs, if_pos h]
        exact ih collected result
      · simp only [collectLoop, loopRefs, if_neg h, List.map_cons, joinSections]
        rw [ih (f :: collected)]
        by_cases hc : get_function_pseudocode host f = ""
        · simp [helperSection, hc, String.empty_append]
        · simp [helperSection, hc, String.append_assoc]

/-- Output shape of `get_all_related_pseudocode`: the primary text
followed by one `helperSection` per helper reference. -/
theorem get_all_related_pseudocode_eq (host : Host) (primary_pseudocode : String) :
    get_all_related_pseudocode host primary_pseudocode =
      primary_pseudocode ++
        joinSections ((helperRefs primary_pseudocode).map (helperSection host)) := by
  unfold get_all_related_pseudocode helperRefs
  exact collectLoop_eq host _ _ _

/-- Sections of failed (empty-body) references vanish from the
concatenation: only references with a non-empty fetched body contribute,
each as a separator line naming the reference followed by its body. -/
theorem joinSections_map_helperSection (host : Host) :
    ∀ l : List String,
      joinSections (l.map (helperSection host)) =
        joinSections
          (((l.filter fun f => get_function_pseudocode host f ≠ "")).map
            fun f => "\n\n// Function: " ++ f ++ "\n" ++ get_function_pseudocode host f) := by
  intro l
  induction l with
  | nil => simp [joinSections]
  | cons f rest ih =>
      by_cases hc : get_function_pseudocode host f = ""
      · simp only [List.map_cons, joinSections, List.filter_cons]
        simp [helperSection, hc, String.empty_append, ih]
      · simp only [List.map_cons, joinSections, List.filter_cons]
        simp [helperSection, hc, ih, joinSections, String.append_assoc]

/-! Claim theorems. -/

/-- C1: for every primary text and every host behaviour — including hosts
where a reference's lookup returns the `BADADDR` sentinel, no function
object exists, decompilation fails, or any step raises — `collect`
returns the primary text plus helper sections only for the references
that resolve to a non-empty body.  The embedding of
`__get_function_pseudocode` absorbs every `Except.error` into `""`, so
the collector is a total function and no exception propagates; a failed
helper is dropped by the filter and contributes nothing. -/
theorem collect_failed_helpers_omitted (host : Host) (primary_pseudocode : String) :
    get_all_related_pseudocode host primary_pseudocode =
      primary_pseudocode ++
        joinSections
          (((helperRefs primary_pseudocode).filter
              fun f => get_function_pseudocode host f ≠ "").map
            fun f => "\n\n// Function: " ++ f ++ "\n" ++ get_function_pseudocode host f) := by
  rw [get_all_related_pseudocode_eq, joinSections_map_helperSection]

/-- C2: each distinct function reference contributes at most one helper
section to the output of `collect`, no matter how often it occurs
textually in the primary text: the processed references (`helperRefs`)
carry each identifier at most once, and the output is exactly one
section per processed reference. -/
theorem collect_dedup_sections (host : Host) (primary_pseudocode f : String) :
    (helperRefs primary_pseudocode).count f ≤ 1 ∧
      get_all_related_pseudocode host primary_pseudocode =
        primary_pseudocode ++
          joinSections ((helperRefs primary_pseudocode).map (helperSection host)) := by
  constructor
  · exact List.nodup_iff_count_le_one.mp (loopRefs_nodup _ _) f
  · exact get_all_related_pseudocode_eq host primary_pseudocode

/-- C3: when the primary text contains no substring matching the
reference pattern, `collect` returns it unchanged, with no helper
sections; in particular `collect` of the empty string is the empty
string (the witness below). -/
theorem collect_no_refs_identity (host : Host) (primary_pseudocode : String)
    (h : extract_sub_functions primary_pseudocode = []) :
    get_all_related_pseudocode host primary_pseudocode = primary_pseudocode := by
  unfold get_all_related_pseudocode
  rw [h]
  rfl

theorem collect_no_refs_identity_witness :
    extract_sub_functions "" = [] ∧ get_all_related_pseudocode hostOk "" = "" :=
  ⟨by decide, collect_no_refs_identity hostOk "" (by decide)⟩

/-- C4: when the primary text contains a first reference followed (after
optional whitespace) by an opening parenthesis — a call expression — that
main reference is pre-marked visited and never contributes a helper
section: it is excluded from the processed references that index the
appended sections, even though it is among the discovered references. -/
theorem collect_main_ref_excluded (host : Host) (primary_pseudocode m : String)
    (h : findMainRef primary_pseudocode.data = some m) :
    m ∉ helperRefs primary_pseudocode ∧
      get_all_related_pseudocode host primary_pseudocode =
        primary_pseudocode ++
          joinSections ((helperRefs primary_pseudocode).map (helperSection host)) := by
  constructor
  · intro hmem
    unfold helperRefs at hmem
    rw [h] at hmem
    exact loopRefs_not_mem_collected _ _ _ hmem (List.mem_singleton.mpr rfl)
  · exact get_all_related_pseudocode_eq host primary_pseudocode

theorem collect_main_ref_excluded_witness :
    findMainRef "sub_12(a); sub_34".data = some "sub_12" ∧
      ("sub_12" ∉ helperRefs "sub_12(a); sub_34" ∧
        get_all_related_pseudocode hostOk "sub_12(a); sub_34" =
          "sub_12(a); sub_34" ++
            joinSections ((helperRefs "sub_12(a); sub_34").map (helperSection hostOk))) :=
  ⟨by decide, collect_main_ref_excluded hostOk "sub_12(a); sub_34" "sub_12" (by decide)⟩

/-- C5: for every primary text and host behaviour, the output of
`collect` begins with the primary text, and everything after it is a
concatenation of helper sections, each consisting of a separator comment
line naming the helper's reference followed by that helper's (non-empty)
body. -/
theorem collect_output_shape (host : Host) (primary_pseudocode : String) :
    ∃ helpers : List String,
      get_all_related_pseudocode host primary_pseudocode =
        primary_pseudocode ++
          joinSections (helpers.map
            fun f => "\n\n// Function: " ++ f ++ "\n" ++ get_function_pseudocode host f) ∧
      ∀ f ∈ helpers, get_function_pseudocode host f ≠ "" := by
  refine ⟨(helperRefs primary_pseudocode).filter
    (fun f => get_function_pseudocode host f ≠ ""), ?_, ?_⟩
  · rw [get_all_related_pseudocode_eq, joinSections_map_helperSection]
  · intro f hf
    exact of_decide_eq_true (List.mem_filter.mp hf).2

theorem collect_output_shape_witness :
    ∃ helpers : List String,
      get_all_related_pseudocode hostFail "sub_12(x); sub_34" =
        "sub_12(x); sub_34" ++
          joinSections (helpers.map
            fun f => "\n\n// Function: " ++ f ++ "\n" ++ get_function_pseudocode hostFail f) ∧
      ∀ f ∈ helpers, get_function_pseudocode hostFail f ≠ "" :=
  collect_output_shape hostFail "sub_12(x); sub_34"

/-- C6: the collection loop of `collect` terminates (it is a total
structurally recursive function here, mirroring the source's loop over a
finite popped set) and processes each distinct reference at most once;
only references scanned from the primary text are ever processed — helper
bodies are never re-scanned to enqueue further work — so a reference that
appears only inside a helper body contributes no section. -/
theorem collect_one_level_terminates (host : Host) (primary_pseudocode : String) :
    (helperRefs primary_pseudocode).Nodup ∧
      (∀ f ∈ helperRefs primary_pseudocode, f ∈ extract_sub_functions primary_pseudocode) ∧
      get_all_related_pseudocode host primary_pseudocode =
        primary_pseudocode ++
          joinSections ((helperRefs primary_pseudocode).map (helperSection host)) := by
  refine ⟨loopRefs_nodup _ _, ?_, get_all_related_pseudocode_eq host primary_pseudocode⟩
  intro f hf
  unfold helperRefs at hf
  exact loopRefs_subset _ _ _ hf

theorem collect_one_level_terminates_witness :
    (helperRefs "sub_1(sub_2)").Nodup ∧
      (∀ f ∈ helperRefs "sub_1(sub_2)", f ∈ extract_sub_functions "sub_1(sub_2)") ∧
      get_all_related_pseudocode hostOk "sub_1(sub_2)" =
        "sub_1(sub_2)" ++
          joinSections ((helperRefs "sub_1(sub_2)").map (helperSection hostOk)) :=
  collect_one_level_terminates hostOk "sub_1(sub_2)"

/-- C7: `translate` never raises to its caller: its result type carries
no exception, and when the service call (or anything inside it, request
construction included) raises `e`, the dispatcher boundary converts the
exception into the returned string `"Error processing request: " ++ e`
(for an unrecognized model the call is never made and the Python `None`
is returned). -/
theorem process_request_catches_exceptions (env : AIEnv)
    (model_name pseudocode target_language api_key e : String)
    (h : process_deepseek env model_name
        (SYSTEM_PROMPT.replace "[language_combobox_value]" target_language)
        pseudocode api_key target_language = Except.error e) :
    process_request env model_name pseudocode target_language api_key =
      (if py_startswith (py_lower model_name) "deepseek" then
        some ("Error processing request: " ++ e)
      else none) := by
  unfold process_request
  by_cases hm : py_startswith (py_lower model_name) "deepseek"
  · simp only [hm, if_true, h]
    rfl
  · simp only [hm, if_false, Bool.false_eq_true]
    rfl

theorem process_request_catches_exceptions_witness :
    process_deepseek envFail "deepseek-v3"
        (SYSTEM_PROMPT.replace "[language_combobox_value]" "Rust")
        "int x;" "key" "Rust" = Except.error "boom" ∧
      process_request envFail "deepseek-v3" "int x;" "Rust" "key" =
        (if py_startswith (py_lower "deepseek-v3") "deepseek" then
          some ("Error processing request: " ++ "boom")
        else none) :=
  ⟨rfl, process_request_catches_exceptions envFail "deepseek-v3" "int x;" "Rust" "key" "boom" rfl⟩

/-- C8: calling `set_pseudocode` with the output area created, a live
main widget, and an empty credential shows the literal validation
message `"API key is required"` and creates no worker: the translation
request is never constructed, so the network layer is not invoked. -/
theorem set_pseudocode_empty_key_validates (st : WidgetState) (code t : String)
    (cfg : MainCfg)
    (hTE : st.responseTE = some t)
    (hmw : st.main_widget = some (CfgSource.live cfg))
    (hkey : cfg.token_input = "") :
    (set_pseudocode st code).responseTE = some "API key is required" ∧
      (set_pseudocode st code).async_thread = none := by
  unfold set_pseudocode
  rw [hTE, hmw]
  simp [hkey]

theorem set_pseudocode_empty_key_validates_witness :
    (WidgetState.mk (some "") (some (CfgSource.live ⟨"deepseek-v3", "C", ""⟩)) none).responseTE = some "" ∧
      (WidgetState.mk (some "") (some (CfgSource.live ⟨"deepseek-v3", "C", ""⟩)) none).main_widget =
        some (CfgSource.live ⟨"deepseek-v3", "C", ""⟩) ∧
      (MainCfg.mk "deepseek-v3" "C" "").token_input = "" ∧
      ((set_pseudocode (WidgetState.mk (some "") (some (CfgSource.live ⟨"deepseek-v3", "C", ""⟩)) none) "x").responseTE =
          some "API key is required" ∧
        (set_pseudocode (WidgetState.mk (some "") (some (CfgSource.live ⟨"deepseek-v3", "C", ""⟩)) none) "x").async_thread =
          none) :=
  ⟨rfl, rfl, rfl,
    set_pseudocode_empty_key_validates
      (WidgetState.mk (some "") (some (CfgSource.live ⟨"deepseek-v3", "C", ""⟩)) none)
      "x" "" ⟨"deepseek-v3", "C", ""⟩ rfl rfl rfl⟩

/-- C9: a model name whose lowering does not start with `"deepseek"`
skips the recognized-family branch: `translate` performs no request for
any environment — the result is `none` (Python `None`) uniformly in
`env`, so no content is produced. -/
theorem process_request_unrecognized_model_none (env : AIEnv)
    (model_name pseudocode target_language api_key : String)
    (h : py_startswith (py_lower model_name) "deepseek" = false) :
    process_request env model_name pseudocode target_language api_key = none := by
  unfold process_request
  simp only [h, Bool.false_eq_true, if_false]
  rfl

theorem process_request_unrecognized_model_none_witness :
    py_startswith (py_lower "gpt-4o") "deepseek" = false ∧
      process_request envFail "gpt-4o" "int x;" "Rust" "key" = none :=
  ⟨by decide, process_request_unrecognized_model_none envFail "gpt-4o" "int x;" "Rust" "key" (by decide)⟩

/-- C10: when the output text area has not been created
(`responseTE = none`), `set_pseudocode` returns with no observable
effect: the whole widget state — displayed text, main-widget reference,
worker — is unchanged. -/
theorem set_pseudocode_no_text_area_noop (st : WidgetState) (code : String)
    (h : st.responseTE = none) :
    set_pseudocode st code = st := by
  unfold set_pseudocode
  rw [h]

theorem set_pseudocode_no_text_area_noop_witness :
    (WidgetState.mk none (some CfgSource.destroyed) (some ⟨"m", "p", "l", "k"⟩)).responseTE = none ∧
      set_pseudocode (WidgetState.mk none (some CfgSource.destroyed) (some ⟨"m", "p", "l", "k"⟩)) "x" =
        WidgetState.mk none (some CfgSource.destroyed) (some ⟨"m", "p", "l", "k"⟩) :=
  ⟨rfl, set_pseudocode_no_text_area_noop
    (WidgetState.mk none (some CfgSource.destroyed) (some ⟨"m", "p", "l", "k"⟩)) "x" rfl⟩
